import Mathlib

/-!
Verification of the Snow-Owl-Chase simulation core.

This file gives a shallow embedding, in Lean 4, of the gameplay-relevant parts
of the repository:

* `SeededRNG` — the Mulberry32 seeded generator of `src/utils.js`.  JavaScript
  32-bit bitwise semantics are modelled on `Nat` with explicit `% 2 ^ 32`
  truncation; the float division `out / 4294967296` composed with
  `Math.floor(x * n)` is exact for the small `n` used here, so `nextInt`
  becomes exact natural division.
* `Obstacle`, `Player`, the collision system of `Collision.js`, the owl state
  machine of `Owl.js`, and the spawner of `Spawner.js`.
* Calls to the *unseeded* global `Math.random()` are modelled by an explicit
  entropy stream `ε : ℕ → ℚ` (values in `[0,1)`) together with a consumption
  index, so that dependence on unseeded randomness is visible in the types.

All numeric state is modelled on `ℚ`; the properties proved here are order
and clamping facts that do not depend on IEEE rounding.
-/

namespace SnowOwl

/-! ## Seeded RNG (src/utils.js, `SeededRNG`, Mulberry32) -/

/-- `2 ^ 32`, the modulus of JavaScript 32-bit bitwise arithmetic. -/
def u32 : Nat := 2 ^ 32

/-- `Math.imul`: 32-bit truncating multiplication (as an unsigned pattern). -/
def imul32 (a b : Nat) : Nat := (a * b) % u32

/-- RNG state: the 32-bit seed (`seed >>> 0` in the constructor). -/
structure SeededRNG where
  seed : Nat
deriving Repr

/-- State advance of `next()`: `seed = (seed + 0x6D2B79F5) | 0`. -/
def SeededRNG.step (r : SeededRNG) : SeededRNG :=
  ⟨(r.seed + 0x6D2B79F5) % u32⟩

/-- The 32-bit output word produced by one call of `next()` (the value
`(t ^ (t >>> 14)) >>> 0` computed from the freshly advanced seed). -/
def SeededRNG.out (r : SeededRNG) : Nat :=
  let s := (r.seed + 0x6D2B79F5) % u32
  let t0 := imul32 (s ^^^ (s >>> 15)) (s ||| 1)
  let t1 := (((t0 + imul32 (t0 ^^^ (t0 >>> 7)) (t0 ||| 61)) % u32) ^^^ t0)
  t1 ^^^ (t1 >>> 14)

/-- `nextInt(min, max) = Math.floor(next() * (max - min + 1)) + min`; the float
product is exact for the ranges used in this code base, so it is natural
division by `2 ^ 32`. -/
def SeededRNG.outInt (r : SeededRNG) (lo hi : Nat) : Nat :=
  r.out * (hi - lo + 1) / u32 + lo

/-- `next()` as a state-passing pair, for call sites that want both. -/
def SeededRNG.nextInt (r : SeededRNG) (lo hi : Nat) : SeededRNG × Nat :=
  (r.step, r.outInt lo hi)

/-! ## Geometry (src/utils.js `aabbCollide`, `clamp`) -/

/-- An axis-aligned box `{x, y, w, h}`. -/
structure Rect where
  x : ℚ
  y : ℚ
  w : ℚ
  h : ℚ
deriving Repr

/-- `aabbCollide` from utils.js. -/
def aabbCollide (a b : Rect) : Bool :=
  decide (a.x < b.x + b.w) && decide (a.x + a.w > b.x) &&
  decide (a.y < b.y + b.h) && decide (a.y + a.h > b.y)

/-- `clamp(v, min, max) = Math.max(min, Math.min(max, v))`. -/
def clampQ (v lo hi : ℚ) : ℚ := max lo (min hi v)

/-! ## Obstacles (entities/Obstacle.js) -/

/-- The eight obstacle kinds of `OBSTACLE_TYPES`. -/
inductive ObstacleType
  | log | snowman | tree | snowball | icePatch | thinIce | snowdrift | branch
deriving DecidableEq, Repr

/-- A snowman projectile (position and its `active` flag; its hitbox in
`checkProjectileCollisions` is the fixed 10×10 box around the centre). -/
structure Projectile where
  x : ℚ
  y : ℚ
  active : Bool
deriving Repr

/-- Obstacle state.  `isEvil` is drawn from the unseeded `Math.random()` in
the constructor (modelled by the entropy argument of `Obstacle.spawn`);
`projectileCooldown` likewise.  Rendering-only fields are omitted. -/
structure Obstacle where
  type : ObstacleType
  lane : Nat
  x : ℚ
  y : ℚ
  speed : ℚ
  active : Bool
  w : ℚ
  h : ℚ
  canJump : Bool
  stunDuration : ℚ
  chopable : Bool
  isEvil : Bool
  triggered : Bool
  projectileCooldown : ℚ
  projectiles : List Projectile
deriving Repr

/-- `new Obstacle(type, lane, x, y, speed)` followed by `_configure()`.
`e1`, `e2` are the two `Math.random()` draws the constructor makes for a
snowman (`isEvil`, `projectileCooldown`); other types make none. -/
def Obstacle.spawn (t : ObstacleType) (lane : Nat) (x y speed : ℚ) (e1 e2 : ℚ) : Obstacle :=
  match t with
  | .log =>
    { type := .log, lane, x, y, speed, active := true, w := 56, h := 20
    , canJump := true, stunDuration := 1000, chopable := false, isEvil := false
    , triggered := false, projectileCooldown := 0, projectiles := [] }
  | .snowman =>
    { type := .snowman, lane, x, y, speed, active := true, w := 30, h := 52
    , canJump := false, stunDuration := 1200, chopable := false
    , isEvil := decide (e1 < 3/5), triggered := false
    , projectileCooldown := 2500 + e2 * 1500, projectiles := [] }
  | .tree =>
    { type := .tree, lane, x, y, speed, active := true, w := 34, h := 80
    , canJump := false, stunDuration := 800, chopable := true, isEvil := false
    , triggered := false, projectileCooldown := 0, projectiles := [] }
  | .snowball =>
    { type := .snowball, lane, x, y, speed := speed * (16/10), active := true, w := 44, h := 44
    , canJump := true, stunDuration := 1400, chopable := false, isEvil := false
    , triggered := false, projectileCooldown := 0, projectiles := [] }
  | .icePatch =>
    { type := .icePatch, lane, x, y, speed, active := true, w := 80, h := 24
    , canJump := false, stunDuration := 0, chopable := false, isEvil := false
    , triggered := false, projectileCooldown := 0, projectiles := [] }
  | .thinIce =>
    { type := .thinIce, lane, x, y, speed, active := true, w := 60, h := 20
    , canJump := false, stunDuration := 500, chopable := false, isEvil := false
    , triggered := false, projectileCooldown := 0, projectiles := [] }
  | .snowdrift =>
    { type := .snowdrift, lane, x, y, speed, active := true, w := 90, h := 32
    , canJump := true, stunDuration := 0, chopable := false, isEvil := false
    , triggered := false, projectileCooldown := 0, projectiles := [] }
  | .branch =>
    { type := .branch, lane, x, y, speed, active := true, w := 60, h := 14
    , canJump := true, stunDuration := 700, chopable := false, isEvil := false
    , triggered := false, projectileCooldown := 0, projectiles := [] }

/-- How many `Math.random()` draws the `Obstacle` constructor makes. -/
def Obstacle.entropyCount (t : ObstacleType) : Nat :=
  match t with
  | .snowman => 2
  | _ => 0

def Obstacle.getHitbox (o : Obstacle) : Rect :=
  ⟨o.x - o.w / 2, o.y - o.h, o.w, o.h⟩

/-- The per-type hit result returned by `Obstacle.checkCollision`; absent JS
fields read back as falsy, modelled by the `false`/`0` defaults. -/
structure HitResult where
  stun : Bool := false
  stunDur : ℚ := 0
  chopable : Bool := false
  slowSteering : Bool := false
  slowSpeed : Bool := false
deriving Repr

/-- `Obstacle.checkCollision(playerHitbox, playerJumping)`.  Thin ice sets its
`triggered` flag on contact (the JS guard `if (!this.triggered)` writes the
same value, so unconditional assignment is equivalent). -/
def Obstacle.checkCollision (o : Obstacle) (phb : Rect) (playerJumping : Bool) :
    Option HitResult × Obstacle :=
  if ¬ (aabbCollide phb o.getHitbox = true) then (none, o)
  else if playerJumping && o.canJump then (none, o)
  else
    match o.type with
    | .icePatch => (some { slowSteering := true }, o)
    | .snowdrift => (some { slowSpeed := true }, o)
    | .thinIce =>
      (some { stun := true, stunDur := o.stunDuration, slowSpeed := true }
      , { o with triggered := true })
    | .snowman =>
      if o.isEvil then (some { stun := true, stunDur := o.stunDuration }, o) else (none, o)
    | .tree => (some { stun := true, stunDur := o.stunDuration, chopable := true }, o)
    | _ => (some { stun := true, stunDur := o.stunDuration }, o)

/-- Walk the projectile list; the first active projectile overlapping the
player is deactivated and yields a 600 ms stun result. -/
def checkProjList (phb : Rect) : List Projectile → Option HitResult × List Projectile
  | [] => (none, [])
  | p :: rest =>
    if p.active && aabbCollide phb ⟨p.x - 5, p.y - 5, 10, 10⟩ then
      (some { stun := true, stunDur := 600 }, { p with active := false } :: rest)
    else
      let r := checkProjList phb rest
      (r.1, p :: r.2)

/-- `Obstacle.checkProjectileCollisions(playerHitbox)`. -/
def Obstacle.checkProjectileCollisions (o : Obstacle) (phb : Rect) :
    Option HitResult × Obstacle :=
  let r := checkProjList phb o.projectiles
  (r.1, { o with projectiles := r.2 })

/-! ## Player (Player.js) -/

/-- Player state; rendering-only fields (footprints, colors) are omitted. -/
structure Player where
  x : ℚ
  y : ℚ
  w : ℚ
  h : ℚ
  lane : Nat
  targetLane : Nat
  lerpSpeed : ℚ
  baseSpeed : ℚ
  speed : ℚ
  maxSpeed : ℚ
  jumping : Bool
  jumpVY : ℚ
  jumpY : ℚ
  jumpPower : ℚ
  gravity : ℚ
  hangMultiplier : ℚ
  jumpCooldown : ℚ
  stunned : Bool
  stunTimer : ℚ
  stunDuration : ℚ
  stunMult : ℚ
  invulTimer : ℚ
  invulDuration : ℚ
  accelMult : ℚ
  dashing : Bool
  dashTimer : ℚ
  dashCooldown : ℚ
  dashCooldownMax : ℚ
  dashDuration : ℚ
  dashDistMult : ℚ
  hasAxe : Bool
  dead : Bool
  stunCount : Nat
  swoopsDodged : Nat

/-- `new Player(x, y, character, attributesMode)` with the empty stats object
(every multiplier defaults to its `|| 1` fallback). -/
def Player.init (x y : ℚ) : Player :=
  { x, y, w := 28, h := 44
  , lane := 2, targetLane := 2, lerpSpeed := 8
  , baseSpeed := 280, speed := 280, maxSpeed := 280
  , jumping := false, jumpVY := 0, jumpY := 0
  , jumpPower := -520, gravity := 1400, hangMultiplier := 1, jumpCooldown := 0
  , stunned := false, stunTimer := 0, stunDuration := 0, stunMult := 1
  , invulTimer := 0, invulDuration := 1200, accelMult := 1
  , dashing := false, dashTimer := 0, dashCooldown := 0, dashCooldownMax := 3000
  , dashDuration := 250, dashDistMult := 1
  , hasAxe := false, dead := false, stunCount := 0, swoopsDodged := 0 }

/-- `Player.dash()`: starts a dash only when off cooldown, not stunned and
not already dashing. -/
def Player.dash (p : Player) : Player :=
  if p.dashCooldown ≤ 0 ∧ p.stunned = false ∧ p.dashing = false then
    { p with
        dashing := true, dashTimer := p.dashDuration
        dashCooldown := p.dashCooldownMax
        speed := p.baseSpeed * (18/10) * p.dashDistMult }
  else p

/-- `Player.stun(durationMs)`: ignored while invulnerable or already stunned. -/
def Player.stun (p : Player) (durationMs : ℚ) : Player :=
  if 0 < p.invulTimer ∨ p.stunned = true then p
  else
    { p with
        stunned := true
        stunDuration := durationMs * p.stunMult
        stunTimer := durationMs * p.stunMult
        speed := p.baseSpeed * (2/5)
        stunCount := p.stunCount + 1 }

/-- `Player.useAxe()`. -/
def Player.useAxe (p : Player) : Player × Bool :=
  if p.hasAxe then ({ p with hasAxe := false }, true) else (p, false)

/-- `Player.getHitbox()` (6 px side margin, 8 px top trim). -/
def Player.getHitbox (p : Player) : Rect :=
  ⟨p.x - p.w / 2 + 6, p.y + p.jumpY - p.h + 8, p.w - 6 * 2, p.h - 8⟩

/-! ## Owl state machine (Owl.js) -/

/-- A ground shadow warning zone (`this.shadows` entries). -/
structure ShadowZone where
  x : ℚ
  y : ℚ
  w : ℚ
  h : ℚ
  timer : ℚ
  maxTimer : ℚ
  isFake : Bool
  lane : Nat
deriving DecidableEq, Repr

/-- A strike line pushed by `_executeSwoops` (`this.swoopLines` entries). -/
structure SwoopLine where
  x : ℚ
  y : ℚ
  x2 : ℚ
  y2 : ℚ
  alpha : ℚ
deriving DecidableEq, Repr

/-- `this.swoopPhase`. -/
inductive SwoopPhase
  | none | shadow | swoop | retreat
deriving DecidableEq, Repr

/-- The scheduled `setTimeout` continuation of `_startSwoop`: remaining delay
until it fires and the `(playerX, playerY)` the closure captured. -/
structure PendingSwoop where
  delay : ℚ
  playerX : ℚ
  playerY : ℚ
deriving DecidableEq, Repr

/-- Owl state (gameplay fields of `Owl`; eye/wing animation fields omitted).
`pending` models `this.swoopTimeout`: `some` while a warning's execution
callback is scheduled, `none` otherwise. -/
structure OwlState where
  threat : ℚ
  swoopActive : Bool
  swoopPhase : SwoopPhase
  swoopTimer : ℚ
  swoopDuration : ℚ
  shadowWarningDuration : ℚ
  shadows : List ShadowZone
  swoopCooldown : ℚ
  swoopCooldownBase : ℚ
  swoopLines : List SwoopLine
  pending : Option PendingSwoop
deriving DecidableEq, Repr

/-- `new Owl(canvasW, canvasH)` gameplay fields. -/
def OwlState.init : OwlState :=
  { threat := 1/10, swoopActive := false, swoopPhase := .none
  , swoopTimer := 0, swoopDuration := 0, shadowWarningDuration := 2000
  , shadows := [], swoopCooldown := 0, swoopCooldownBase := 8000
  , swoopLines := [], pending := none }

/-- `Owl.increaseThreat(amount)`. -/
def OwlState.increaseThreat (o : OwlState) (amount : ℚ) : OwlState :=
  { o with threat := clampQ (o.threat + amount) 0 1 }

/-- `Owl.decreaseThreat(amount)`. -/
def OwlState.decreaseThreat (o : OwlState) (amount : ℚ) : OwlState :=
  { o with threat := clampQ (o.threat - amount) 0 1 }

/-- `Owl.isPlayerInShadow(playerHitbox)`: overlap with any non-fake shadow
(shadows are centred boxes, so half extents are used). -/
def OwlState.isPlayerInShadow (o : OwlState) (phb : Rect) : Bool :=
  o.shadows.any fun s =>
    !s.isFake &&
    decide (phb.x < s.x + s.w / 2) && decide (phb.x + phb.w > s.x - s.w / 2) &&
    decide (phb.y < s.y + s.h / 2) && decide (phb.y + phb.h > s.y - s.h / 2)

/-- `Owl.checkSwoopCapture(playerHitbox)`: a fresh strike line (alpha above
0.7) whose x is within 30 px of the player's horizontal centre. -/
def OwlState.checkSwoopCapture (o : OwlState) (phb : Rect) : Bool :=
  o.swoopLines.any fun sl =>
    decide ((7 : ℚ)/10 < sl.alpha) && decide (|phb.x + phb.w / 2 - sl.x| < 30)

/-- `Owl._executeSwoops(playerX, playerY)`: each non-fake shadow becomes a
vertical strike line; shadows are cleared, the swoop ends and the cooldown
restarts.  Returns the state unchanged if no swoop is active. -/
def OwlState.executeSwoops (o : OwlState) (playerY : ℚ) : OwlState :=
  if o.swoopActive = false then o
  else
    { o with
        swoopPhase := .none
        swoopLines := o.swoopLines ++
          ((o.shadows.filter fun s => !s.isFake).map fun s =>
            { x := s.x, y := 0, x2 := s.x, y2 := playerY + 30, alpha := 1 })
        shadows := []
        swoopActive := false
        swoopCooldown := o.swoopCooldownBase }

/-- `Owl.cancelSwoop()`: clears the scheduled continuation (`clearTimeout`)
and all shadow/strike state.  Total — never fails, also when nothing is
pending. -/
def OwlState.cancelSwoop (o : OwlState) : OwlState :=
  { o with
      pending := none
      swoopActive := false
      swoopPhase := .none
      shadows := []
      swoopLines := [] }

/-- Build the `numShadows` warning shadows of `_startSwoop`.  `ε`/`k` model
the global `Math.random()` stream: each shadow draws its `isFake` flag (only
when `difficulty ≥ 4` and it is not the first shadow, by JS short-circuit)
and then its lane `Math.floor(Math.random() * 5)`. -/
def mkShadows (playerY : ℚ) (lanePositions : List ℚ) (difficulty : Nat) (warnDur : ℚ)
    (ε : ℕ → ℚ) (i : Nat) : Nat → ℕ → List ShadowZone × ℕ
  | 0, k => ([], k)
  | Nat.succ m, k =>
    let fk : Bool × ℕ :=
      if 4 ≤ difficulty ∧ 0 < i then (decide (ε k < 7/20), k + 1) else (false, k)
    let lane := (⌊ε fk.2 * 5⌋).toNat
    let size : ℚ := 50 + (difficulty : ℚ) * 8
    let sh : ShadowZone :=
      { x := lanePositions.getD lane 0, y := playerY - 30, w := size, h := size / 2
      , timer := warnDur, maxTimer := warnDur, isFake := fk.1, lane := lane }
    let rest := mkShadows playerY lanePositions difficulty warnDur ε (i + 1) m (fk.2 + 1)
    (sh :: rest.1, rest.2)

/-- `Owl._startSwoop(playerX, playerY, playerLane, lanePositions, difficulty,
shadowWarnMult)`.  Note that every random quantity here comes from the
*unseeded* `Math.random()` stream `ε`, never from the `SeededRNG`: the number
of shadows (an extra draw only when `difficulty ≥ 3`), each decoy flag and
each lane.  Schedules the execution continuation after `warnDur` ms. -/
def OwlState.startSwoop (o : OwlState) (playerX playerY : ℚ) (lanePositions : List ℚ)
    (difficulty : Nat) (shadowWarnMult : ℚ) (ε : ℕ → ℚ) (k : ℕ) : OwlState × ℕ :=
  let warnDur := o.shadowWarningDuration * shadowWarnMult / (1 + (difficulty : ℚ) * (15/100))
  let nk : Nat × ℕ :=
    if 3 ≤ difficulty then (if ε k < 2/5 then (2, k + 1) else (1, k + 1)) else (1, k)
  let built := mkShadows playerY lanePositions difficulty warnDur ε 0 nk.1 nk.2
  ({ o with
      swoopActive := true
      swoopPhase := .shadow
      shadows := built.1
      swoopDuration := warnDur
      swoopTimer := warnDur
      pending := some { delay := warnDur, playerX := playerX, playerY := playerY } }
  , built.2)

/-- Wall-clock advance of the platform timer backing `setTimeout`: when the
scheduled delay elapses, the captured `_executeSwoops` continuation fires.
This models time passing for the pending transition only (no new swoop is
started). -/
def OwlState.fastForward (o : OwlState) (dtMs : ℚ) : OwlState :=
  match o.pending with
  | none => o
  | some pd =>
    if pd.delay ≤ dtMs then OwlState.executeSwoops { o with pending := none } pd.playerY
    else { o with pending := some { pd with delay := pd.delay - dtMs } }

/-! ## Collision system (Collision.js) -/

/-- The `type` tags of the hit records `checkObstacles` returns. -/
inductive HitType
  | stun | chop | ice | projectile
deriving DecidableEq, Repr

/-- Loop body of `CollisionSystem.checkObstacles`: walks the obstacle list in
order, threading the player (hit handling mutates the player) and rebuilding
the obstacle list (collision responses mutate obstacles in place).  `phb` and
`jumping` are fixed before the loop, as in the JS code. -/
def checkObstaclesLoop (phb : Rect) (jumping : Bool) :
    Player → List Obstacle → List HitType × Player × List Obstacle
  | p, [] => ([], p, [])
  | p, o :: rest =>
    if o.active = false then
      let r := checkObstaclesLoop phb jumping p rest
      (r.1, r.2.1, o :: r.2.2)
    else
      let main := o.checkCollision phb jumping
      let afterMain : List HitType × Player × Obstacle :=
        match main.1 with
        | none => ([], p, main.2)
        | some res =>
          if res.stun then
            if res.chopable && p.hasAxe then
              ([HitType.chop], (p.useAxe).1, { main.2 with active := false })
            else
              ([HitType.stun], p.stun (if res.stunDur = 0 then 1000 else res.stunDur), main.2)
          else if res.slowSteering then ([HitType.ice], p, main.2)
          else if res.slowSpeed then
            ([], { p with speed := max (p.speed * (7/10)) (p.baseSpeed * (1/2)) }, main.2)
          else ([], p, main.2)
      let proj := afterMain.2.2.checkProjectileCollisions phb
      let afterProj : List HitType × Player :=
        match proj.1 with
        | some res =>
          if res.stun && decide (afterMain.2.1.invulTimer ≤ 0) then
            ([HitType.projectile], afterMain.2.1.stun res.stunDur)
          else ([], afterMain.2.1)
        | none => ([], afterMain.2.1)
      let r := checkObstaclesLoop phb jumping afterProj.2 rest
      (afterMain.1 ++ afterProj.1 ++ r.1, r.2.1, proj.2 :: r.2.2)

/-- `CollisionSystem.checkObstacles(player, obstacles)`: empty result and no
mutation while the player is invulnerable or dead. -/
def CollisionSystem.checkObstacles (p : Player) (obstacles : List Obstacle) :
    List HitType × Player × List Obstacle :=
  if 0 < p.invulTimer ∨ p.dead = true then ([], p, obstacles)
  else checkObstaclesLoop p.getHitbox p.jumping p obstacles

/-- `CollisionSystem.checkOwlCapture(player, owl)`. -/
def CollisionSystem.checkOwlCapture (p : Player) (owl : OwlState) : Bool :=
  if 0 < p.invulTimer ∨ p.dead = true then false
  else owl.checkSwoopCapture p.getHitbox

/-! ## Spawner (Spawner.js) -/

/-- The five pickup kinds, in `Object.values(PICKUP_TYPES)` order. -/
inductive PickupType
  | featherAxe | windGust | hotCocoa | lanternCharm | luckyBell
deriving DecidableEq, Repr

/-- `ALL_PICKUPS = Object.values(PICKUP_TYPES)`. -/
def allPickups : List PickupType :=
  [.featherAxe, .windGust, .hotCocoa, .lanternCharm, .luckyBell]

/-- A lane-occupancy pattern entry of `_getPatterns`. -/
structure Pattern where
  type : ObstacleType
  lanes : List Nat
  difficulty : Nat
  gap : List Nat
deriving DecidableEq, Repr

/-- Fallback for list indexing (never reached: `choice` is only applied to
non-empty pools and its index is in range). -/
def defaultPattern : Pattern := ⟨.log, [], 0, []⟩

/-- `Spawner._getPatterns(difficulty)`.  The `base` and `medium` array
literals are both evaluated on every call (consuming eight `nextInt(0,4)`
draws in source order) before tier filtering; `hard` contains only fixed
lanes.  Returns the advanced RNG and the eligible pool. -/
def getPatterns (r : SeededRNG) (difficulty : Nat) : SeededRNG × List Pattern :=
  let l1 := r.outInt 0 4
  let r1 := r.step
  let l2 := r1.outInt 0 4
  let r2 := r1.step
  let l3 := r2.outInt 0 4
  let r3 := r2.step
  let l4 := r3.outInt 0 4
  let r4 := r3.step
  let l5 := r4.outInt 0 4
  let r5 := r4.step
  let l6 := r5.outInt 0 4
  let r6 := r5.step
  let m1 := r6.outInt 0 4
  let r7 := r6.step
  let m2 := r7.outInt 0 4
  let r8 := r7.step
  let base : List Pattern :=
    [ ⟨.log, [l1], 0, []⟩, ⟨.snowman, [l2], 0, []⟩, ⟨.snowdrift, [l3], 0, []⟩
    , ⟨.icePatch, [l4], 0, []⟩, ⟨.branch, [l5], 0, []⟩
    , ⟨.log, [0, 1, 2], 1, []⟩, ⟨.log, [2, 3, 4], 1, []⟩
    , ⟨.snowman, [0, 2, 4], 1, [1, 3]⟩, ⟨.tree, [l6], 1, []⟩ ]
  let medium : List Pattern :=
    [ ⟨.snowball, [m1], 2, []⟩, ⟨.log, [1, 2, 3], 2, []⟩
    , ⟨.snowman, [0, 1, 3, 4], 2, [2]⟩, ⟨.thinIce, [m2], 2, []⟩ ]
  let hard : List Pattern :=
    [ ⟨.snowball, [0, 2, 4], 3, []⟩, ⟨.snowman, [0, 1, 2, 4], 3, [3]⟩
    , ⟨.log, [0, 1, 2, 3], 3, [4]⟩, ⟨.tree, [1, 3], 3, []⟩ ]
  (r8, base ++ (if 2 ≤ difficulty then medium else []) ++ (if 4 ≤ difficulty then hard else []))

/-- Loop of `Spawner._buildPattern`: one obstacle per non-gap lane.  `ε`/`k`
thread the `Math.random()` stream consumed by the `Obstacle` constructor (two
draws per snowman).  The `pattern.lanes || [rng.nextInt(0,4)]` fallback is
dead code — every pattern in the pool defines `lanes` — and is not modelled. -/
def buildLanes (ty : ObstacleType) (gap : List Nat) (lanePositions : List ℚ)
    (spawnY speedMul : ℚ) (ε : ℕ → ℚ) : List Nat → ℕ → List Obstacle
  | [], _ => []
  | lane :: rest, k =>
    if gap.contains lane then buildLanes ty gap lanePositions spawnY speedMul ε rest k
    else
      Obstacle.spawn ty lane (lanePositions.getD lane 0) spawnY speedMul (ε k) (ε (k + 1))
        :: buildLanes ty gap lanePositions spawnY speedMul ε rest (k + Obstacle.entropyCount ty)

/-- Number of `Math.random()` draws `_buildPattern` makes for a pattern. -/
def Pattern.entropyUse (p : Pattern) : ℕ :=
  (p.lanes.filter fun l => !(p.gap.contains l)).length * Obstacle.entropyCount p.type

/-- Pattern selection of `_spawnObstaclePattern`: one `choice` from the full
pool, then — when a warning shadow is active and the `difficulty ≤ 1`
sub-pool is non-empty — a second `choice` from that sub-pool overriding the
first.  Returns the advanced RNG and the selected pattern. -/
def Spawner.choosePattern (r : SeededRNG) (difficulty : Nat) (hasActiveShadow : Bool) :
    SeededRNG × Pattern :=
  let pr := getPatterns r difficulty
  let patterns := pr.2
  let pat0 := patterns.getD (pr.1.outInt 0 (patterns.length - 1)) defaultPattern
  let rA := pr.1.step
  let safe := patterns.filter fun p => decide (p.difficulty ≤ 1)
  let useSafe := hasActiveShadow && !safe.isEmpty
  ( if useSafe then rA.step else rA
  , if useSafe then safe.getD (rA.outInt 0 (safe.length - 1)) defaultPattern else pat0)

/-- Safety validation of `_spawnObstaclePattern`: if the chosen pattern's
occupancy `Set` covers five distinct lanes, keep only the first four entries
(`slice(0, 4)`). -/
def validatePattern (p : Pattern) : Pattern :=
  if 5 ≤ p.lanes.dedup.length then { p with lanes := p.lanes.take 4 } else p

/-- `Spawner._spawnObstaclePattern(difficulty, playerSpeed, playerY,
hasActiveShadow)`: draw a pattern uniformly from the pool, redraw from the
`difficulty ≤ 1` sub-pool when a shadow is active, free a lane when all five
would be occupied, and build the obstacles.
Returns (advanced RNG, obstacles, advanced entropy index). -/
def Spawner.spawnObstaclePattern (lanePositions : List ℚ) (spawnY : ℚ) (r : SeededRNG)
    (difficulty : Nat) (playerSpeed : ℚ) (hasActiveShadow : Bool) (ε : ℕ → ℚ) (k : ℕ) :
    SeededRNG × List Obstacle × ℕ :=
  let cp := Spawner.choosePattern r difficulty hasActiveShadow
  let pat2 := validatePattern cp.2
  ( cp.1
  , buildLanes pat2.type pat2.gap lanePositions spawnY (playerSpeed * (85/100)) ε pat2.lanes k
  , k + pat2.entropyUse)

/-- Spawner fields (canvas size is only used for rendering offsets and is
omitted). -/
structure SpawnerState where
  rng : SeededRNG
  obstacleTimer : ℚ
  obstacleInterval : ℚ
  pickupTimer : ℚ
  pickupInterval : ℚ
  npcTimer : ℚ
  npcInterval : ℚ
  npcMax : Nat
  spawnY : ℚ
  lanePositions : List ℚ
deriving Repr

/-- `new Spawner(canvasW, canvasH, lanePositions, rng)` (`seed >>> 0` is the
32-bit truncation). -/
def SpawnerState.init (lanePositions : List ℚ) (seed : Nat) : SpawnerState :=
  { rng := ⟨seed % u32⟩, obstacleTimer := 0, obstacleInterval := 2200
  , pickupTimer := 0, pickupInterval := 5000
  , npcTimer := 0, npcInterval := 8000, npcMax := 3
  , spawnY := -80, lanePositions }

/-- Per-tick inputs to `Spawner.update` supplied by the game loop.
`activeNPCs` is `npcs.filter(n => n.active).length`. -/
structure SpawnTick where
  dt : ℚ
  difficulty : Nat
  playerSpeed : ℚ
  playerY : ℚ
  pickupFreqMult : ℚ
  hasActiveShadow : Bool
  activeNPCs : Nat
deriving Repr

/-- `Math.random()` draws made when an NPC is spawned (five in the `NPC`
constructor). -/
def npcEntropyUse : ℕ := 5

/-- `Math.random()` draws made when a pickup is spawned (one in the `Pickup`
constructor, for `bobPhase`). -/
def pickupEntropyUse : ℕ := 1

/-- `Spawner.update(dt, difficulty, obstacles, pickups, npcs, playerSpeed,
playerY, pickupFreqMult, hasActiveShadow)`.  Returns the new spawner state,
the obstacles appended this tick, and the advanced entropy index.  Pickup
spawning consumes two seeded draws (`nextInt` lane and `choice` type); NPC
spawning consumes two seeded draws (`nextInt(0,4)` and `nextInt(0,120)`); the
spawned pickup and NPC objects themselves are not tracked here. -/
def Spawner.update (s : SpawnerState) (t : SpawnTick) (ε : ℕ → ℚ) (k : ℕ) :
    SpawnerState × List Obstacle × ℕ :=
  let dtMs := t.dt * 1000
  let diffMult : ℚ := 1 + (t.difficulty : ℚ) * (15/100)
  let obT := s.obstacleTimer + dtMs
  let interval := max 900 (s.obstacleInterval / diffMult)
  let so := Spawner.spawnObstaclePattern s.lanePositions s.spawnY s.rng t.difficulty
    t.playerSpeed t.hasActiveShadow ε k
  let s1 : SpawnerState :=
    if interval ≤ obT then { s with obstacleTimer := 0, rng := so.1 }
    else { s with obstacleTimer := obT }
  let newObs : List Obstacle := if interval ≤ obT then so.2.1 else []
  let k1 : ℕ := if interval ≤ obT then so.2.2 else k
  let pkT := s1.pickupTimer + dtMs
  let pInt := s1.pickupInterval / t.pickupFreqMult
  let s2 : SpawnerState :=
    if pInt ≤ pkT then { s1 with pickupTimer := 0, rng := s1.rng.step.step }
    else { s1 with pickupTimer := pkT }
  let k2 : ℕ := if pInt ≤ pkT then k1 + pickupEntropyUse else k1
  let npT := s2.npcTimer + dtMs
  let s3 : SpawnerState :=
    if s2.npcInterval ≤ npT ∧ t.activeNPCs < s2.npcMax then
      { s2 with npcTimer := 0, rng := s2.rng.step.step }
    else { s2 with npcTimer := npT }
  let k3 : ℕ :=
    if s2.npcInterval ≤ npT ∧ t.activeNPCs < s2.npcMax then k2 + npcEntropyUse else k2
  (s3, newObs, k3)

/-- Observable spawn record: tick index, obstacle type, lane. -/
def spawnRec (i : ℕ) (o : Obstacle) : ℕ × ObstacleType × ℕ := (i, o.type, o.lane)

/-- Drive the spawner over a tick trace, collecting the spawn records of
every spawned obstacle tagged with its tick index (the spawn time). -/
def runSpawner (ε : ℕ → ℚ) : List SpawnTick → SpawnerState → ℕ → ℕ →
    List (ℕ × ObstacleType × ℕ)
  | [], _, _, _ => []
  | t :: ts, s, k, i =>
    let u := Spawner.update s t ε k
    u.2.1.map (spawnRec i) ++ runSpawner ε ts u.1 u.2.2 (i + 1)

/-! ## Game loop fragments (Game.js `_updatePlaying`, `_gameOver`) -/

/-- One threat adjustment performed during a playing tick (calls of
`owl.increaseThreat` / `owl.decreaseThreat` with the given amount). -/
inductive ThreatOp
  | inc (amount : ℚ)
  | dec (amount : ℚ)
deriving DecidableEq, Repr

/-- Apply one threat adjustment to the owl. -/
def applyThreatOp (o : OwlState) : ThreatOp → OwlState
  | .inc a => o.increaseThreat a
  | .dec a => o.decreaseThreat a

/-- The game states relevant to the threat game-over path; `Game.update(dt)`
dispatches `_updatePlaying` only in the `playing` state, and `_gameOver`
moves the run to `gameover`, from which no gameplay tick runs again. -/
inductive GamePhase
  | playing | gameover
deriving DecidableEq, Repr

/-- The run state threading the threat-triggered game-over check:
`gameOverCount` counts executions of `_gameOver('caught')`. -/
structure RunState where
  phase : GamePhase
  owl : OwlState
  gameOverCount : Nat

/-- One simulation tick of the threat game-over path: in the `playing` state
the tick's threat adjustments are applied and then `_updatePlaying` checks
`this.owl.threat >= 1.0` and calls `_gameOver('caught')` (which cancels the
swoop and leaves the `playing` state); in `gameover` the dispatcher runs no
gameplay code. -/
def tickThreatCheck (st : RunState) (ops : List ThreatOp) : RunState :=
  match st.phase with
  | .playing =>
    let owl1 := ops.foldl applyThreatOp st.owl
    if 1 ≤ owl1.threat then
      { phase := .gameover, owl := owl1.cancelSwoop, gameOverCount := st.gameOverCount + 1 }
    else { st with owl := owl1 }
  | .gameover => st

/-- Per-tick inputs of the shadow-tracking fragment of `_updatePlaying`
(lines 635–660 of Game.js plus the capture check): the player state it reads. -/
structure ShadowTickIn where
  dt : ℚ
  stunned : Bool
  dashing : Bool
  invulTimer : ℚ
  dead : Bool
  phb : Rect
deriving Repr

/-- State threaded by the shadow-tracking fragment. -/
structure ShadowTrackState where
  owl : OwlState
  wasInShadow : Bool
  shadowDodgeTimer : ℚ
  swoopsDodged : Nat
  streak : ℚ
  score : ℚ
  captured : Bool
deriving Repr

/-- The threat/dodge/capture fragment of one `_updatePlaying` tick: ambient
threat adjustment from player performance, shadow-dwell threat rise and dodge
timer, the dodge credit branch, and `checkOwlCapture`.  `captured` latches
whether any tick so far signalled a capture.  The owl's shadow set is left
unchanged here (`Owl.update` only decrements shadow timers; shadows are
removed by execution or cancellation only). -/
def shadowTrackTick (st : ShadowTrackState) (inp : ShadowTickIn) : ShadowTrackState :=
  let dtMs := inp.dt * 1000
  let owl1 :=
    if inp.stunned then st.owl.increaseThreat (inp.dt * (8/100))
    else if inp.dashing = false then st.owl.decreaseThreat (inp.dt * (12/1000))
    else st.owl.decreaseThreat (inp.dt * (25/1000))
  let inShadow := owl1.isPlayerInShadow inp.phb
  let owl2 := if inShadow then owl1.increaseThreat (inp.dt * (6/100)) else owl1
  let timer1 := if inShadow then st.shadowDodgeTimer + dtMs else st.shadowDodgeTimer
  let dodge := st.wasInShadow && !inShadow && decide ((200 : ℚ) < timer1)
  let st1 : ShadowTrackState :=
    if dodge then
      { st with
          swoopsDodged := st.swoopsDodged + 1
          streak := min (st.streak + 2/10) 8
          score := st.score + 50
          shadowDodgeTimer := 0 }
    else { st with shadowDodgeTimer := timer1 }
  let cap :=
    if 0 < inp.invulTimer ∨ inp.dead = true then false
    else owl2.checkSwoopCapture inp.phb
  { st1 with owl := owl2, wasInShadow := inShadow, captured := st.captured || cap }

/-- Run the fragment over a trace of ticks. -/
def runShadowTrack (st : ShadowTrackState) (trace : List ShadowTickIn) : ShadowTrackState :=
  trace.foldl shadowTrackTick st

/-! ## Claim theorems -/

/-- Concrete stunned player reached by stunning a fresh player. -/
def stunnedPlayer : Player := (Player.init 240 620).stun 1000

/-- A freshly invulnerable player (for the C10 witness). -/
def invulPlayer : Player := { Player.init 240 620 with invulTimer := 500 }

/-- A snowdrift (a non-stun, speed-slowing obstacle) sitting on the player
(for the C10 witness: even overlapping non-stun effects are suppressed). -/
def overlappingDrift : Obstacle := Obstacle.spawn .snowdrift 2 240 640 238 0 0

/-- A fresh player holding the axe (for the C8 witness). -/
def axePlayer : Player := { Player.init 240 620 with hasAxe := true }

/-- The amount carried by a threat adjustment. -/
def ThreatOp.amount : ThreatOp → ℚ
  | .inc a => a
  | .dec a => a

/-- Five-lane x positions for a 480 px canvas (margin 80, spacing 80), as
`Game._computeLanes` yields them. -/
def lanes480 : List ℚ := [80, 160, 240, 320, 400]

/-- Warning shadow for the C6 scenario: non-decoy, difficulty-1 size
(`50 + 8 = 58`), on lane 2 at `x = 240`, near the player's feet
(`y = playerY - 30`), with a difficulty-1 warning duration `2000 / 1.15`. -/
def scenarioShadow : ShadowZone :=
  { x := 240, y := 590, w := 58, h := 29, timer := 40000/23, maxTimer := 40000/23
  , isFake := false, lane := 2 }

/-- Owl mid-warning with the single non-decoy shadow of the C6 scenario. -/
def scenarioOwl : OwlState :=
  { OwlState.init with
      swoopActive := true
      swoopPhase := .shadow
      shadows := [scenarioShadow]
      swoopTimer := 40000/23
      swoopDuration := 40000/23
      pending := some { delay := 40000/23, playerX := 240, playerY := 620 } }

/-- A 100 ms tick of a healthy, non-dashing player standing at `x = px`. -/
def scenarioTick (px : ℚ) : ShadowTickIn :=
  { dt := 1/10, stunned := false, dashing := false, invulTimer := 0, dead := false
  , phb := (Player.init px 620).getHitbox }

/-- The C6 trace: three ticks inside the shadow (t = 0..300 ms), then three
ticks after stepping one lane to the left (outside the shadow). -/
def scenarioTrace : List ShadowTickIn :=
  [scenarioTick 240, scenarioTick 240, scenarioTick 240
  , scenarioTick 160, scenarioTick 160, scenarioTick 160]

/-- Fragment state at the start of the C6 scenario. -/
def scenarioStart : ShadowTrackState :=
  { owl := scenarioOwl, wasInShadow := false, shadowDodgeTimer := 0
  , swoopsDodged := 0, streak := 1, score := 0, captured := false }

/-! ## Theorems -/

theorem SeededRNG.out_lt (r : SeededRNG) : r.out < u32 := by
  have hpow : ∀ a b : Nat, a < u32 → b < u32 → (a ^^^ b) < u32 := by
    intro a b ha hb
    exact Nat.xor_lt_two_pow ha hb
  have h32 : 0 < u32 := by decide
  unfold SeededRNG.out
  have hs : (r.seed + 0x6D2B79F5) % u32 < u32 := Nat.mod_lt _ h32
  have ht0 : imul32 (((r.seed + 0x6D2B79F5) % u32) ^^^ (((r.seed + 0x6D2B79F5) % u32) >>> 15))
      (((r.seed + 0x6D2B79F5) % u32) ||| 1) < u32 := Nat.mod_lt _ h32
  have hsum : ∀ x : Nat, x % u32 < u32 := fun x => Nat.mod_lt _ h32
  have hshr : ∀ x k : Nat, x >>> k ≤ x := by
    intro x k
    rw [Nat.shiftRight_eq_div_pow]
    exact Nat.div_le_self _ _
  refine hpow _ _ (hpow _ _ (hsum _) ht0) ?_
  calc _ ≤ ((((imul32 _ _ + imul32 _ _) % u32) ^^^ imul32 _ _)) := hshr _ _
  _ < u32 := hpow _ _ (hsum _) ht0

theorem SeededRNG.outInt_lt (r : SeededRNG) (n : Nat) (hn : 0 < n) :
    r.outInt 0 (n - 1) < n := by
  unfold SeededRNG.outInt
  have h : n - 1 - 0 + 1 = n := by omega
  rw [h, Nat.add_zero]
  have hout := r.out_lt
  have h32 : 0 < u32 := by decide
  rw [Nat.div_lt_iff_lt_mul h32]
  calc r.out * n < u32 * n := by
        exact Nat.mul_lt_mul_of_lt_of_le hout (le_refl n) hn
  _ = n * u32 := Nat.mul_comm _ _

/-- C9: a stun request issued while the player is already stunned or while
the player is invulnerable is a no-op — `Player.stun` leaves the entire
player state unchanged. -/
theorem stun_noop_when_stunned_or_invulnerable (p : Player) (d : ℚ)
    (h : p.stunned = true ∨ 0 < p.invulTimer) : p.stun d = p := by
  unfold Player.stun
  rcases h with h | h
  · rw [if_pos (Or.inr h)]
  · rw [if_pos (Or.inl h)]

/-- Witness for C9 at a concrete stunned player. -/
theorem stun_noop_witness :
    stunnedPlayer.stunned = true ∧ stunnedPlayer.stun 500 = stunnedPlayer :=
  ⟨by decide, stun_noop_when_stunned_or_invulnerable stunnedPlayer 500 (Or.inl (by decide))⟩

/-- C7 counterexample: the state reached by `dash()` then `stun(1000)` from a
fresh player has `dashing` and `stunned` simultaneously true — `Player.stun`
does not clear or check the dash, so the two flags are not mutually
exclusive. -/
theorem dash_then_stun_both_flags :
    (((Player.init 100 500).dash).stun 1000).dashing = true ∧
    (((Player.init 100 500).dash).stun 1000).stunned = true := by
  constructor <;> decide

/-- C7 (amended): a dash cannot start while stunned — `Player.dash` is a
no-op on a stunned player (the converse direction, stunning during a dash,
does leave both flags set, as the counterexample shows). -/
theorem dash_noop_while_stunned (p : Player) (h : p.stunned = true) : p.dash = p := by
  unfold Player.dash
  rw [if_neg]
  simp [h]

/-- Witness for the amended C7 at a concrete stunned player. -/
theorem dash_noop_witness :
    ((Player.init 100 500).stun 700).stunned = true ∧
    ((Player.init 100 500).stun 700).dash = (Player.init 100 500).stun 700 :=
  ⟨by decide, dash_noop_while_stunned ((Player.init 100 500).stun 700) (by decide)⟩

/-- C10: while the player is invulnerable or dead, `checkObstacles` returns
no hits and leaves the player and all obstacles untouched, and
`checkOwlCapture` reports no capture. -/
theorem invulnerable_or_dead_suppresses_all_effects (p : Player) (obstacles : List Obstacle)
    (owl : OwlState) (h : 0 < p.invulTimer ∨ p.dead = true) :
    CollisionSystem.checkObstacles p obstacles = ([], p, obstacles) ∧
    CollisionSystem.checkOwlCapture p owl = false := by
  constructor
  · unfold CollisionSystem.checkObstacles
    rw [if_pos h]
  · unfold CollisionSystem.checkOwlCapture
    rw [if_pos h]

/-- Witness for C10: the invulnerable player overlaps a snowdrift, yet no
effect is applied. -/
theorem invulnerable_witness :
    (0 < invulPlayer.invulTimer ∧
      aabbCollide invulPlayer.getHitbox overlappingDrift.getHitbox = true) ∧
    CollisionSystem.checkObstacles invulPlayer [overlappingDrift] =
        ([], invulPlayer, [overlappingDrift]) ∧
    CollisionSystem.checkOwlCapture invulPlayer OwlState.init = false :=
  ⟨⟨by norm_num [invulPlayer, Player.init],
      by norm_num [aabbCollide, invulPlayer, overlappingDrift, Player.init, Player.getHitbox,
        Obstacle.spawn, Obstacle.getHitbox]⟩,
    invulnerable_or_dead_suppresses_all_effects invulPlayer [overlappingDrift] OwlState.init
      (Or.inl (by norm_num [invulPlayer, Player.init]))⟩

/-- C5: `cancelSwoop` clears all shadows and strike lines at once; after a
cancel no amount of elapsed wall-clock time can make the scheduled execution
fire (no strike line ever appears from the cancelled swoop); and the call is
idempotent — it is a total function, so it also cannot throw when nothing is
pending. -/
theorem cancelSwoop_clears_blocks_and_idempotent (o : OwlState) :
    (o.cancelSwoop.shadows = [] ∧ o.cancelSwoop.swoopLines = []) ∧
    (∀ dts : List ℚ, (dts.foldl OwlState.fastForward o.cancelSwoop).swoopLines = []) ∧
    o.cancelSwoop.cancelSwoop = o.cancelSwoop := by
  have hfix : ∀ dt, o.cancelSwoop.fastForward dt = o.cancelSwoop := fun _ => rfl
  refine ⟨⟨rfl, rfl⟩, ?_, rfl⟩
  intro dts
  induction dts with
  | nil => rfl
  | cons d ds ih =>
    rw [List.foldl_cons, hfix]
    exact ih

/-- C8: a non-invulnerable, live player holding the axe who collides with an
active tree gets exactly one chop hit: the tree is deactivated, the axe is
consumed, and the player is otherwise untouched — in particular not stunned. -/
theorem tree_hit_with_axe_chops (p : Player) (lane : Nat) (x y speed e1 e2 : ℚ)
    (hInv : p.invulTimer ≤ 0) (hDead : p.dead = false) (hAxe : p.hasAxe = true)
    (hColl : aabbCollide p.getHitbox (Obstacle.spawn .tree lane x y speed e1 e2).getHitbox
      = true) :
    CollisionSystem.checkObstacles p [Obstacle.spawn .tree lane x y speed e1 e2] =
      ([HitType.chop], { p with hasAxe := false },
        [{ Obstacle.spawn .tree lane x y speed e1 e2 with active := false }]) := by
  have hInv' : ¬ 0 < p.invulTimer := not_lt.mpr hInv
  unfold CollisionSystem.checkObstacles
  rw [if_neg (by simp [hInv', hDead])]
  simp only [Obstacle.spawn, Obstacle.getHitbox] at hColl
  simp [checkObstaclesLoop, Obstacle.checkCollision, Obstacle.spawn,
    Obstacle.checkProjectileCollisions, checkProjList, Obstacle.getHitbox, Player.useAxe,
    hColl, hAxe]

/-- Witness for C8: the axe-carrying player overlaps a tree; the collision
pass chops it. -/
theorem tree_chop_witness :
    (axePlayer.hasAxe = true ∧
      aabbCollide axePlayer.getHitbox (Obstacle.spawn .tree 2 240 640 238 0 0).getHitbox
        = true) ∧
    CollisionSystem.checkObstacles axePlayer [Obstacle.spawn .tree 2 240 640 238 0 0] =
      ([HitType.chop], { axePlayer with hasAxe := false },
        [{ Obstacle.spawn .tree 2 240 640 238 0 0 with active := false }]) :=
  ⟨⟨by decide,
    by norm_num [aabbCollide, axePlayer, Player.init, Player.getHitbox,
      Obstacle.spawn, Obstacle.getHitbox]⟩,
    tree_hit_with_axe_chops axePlayer 2 240 640 238 0 0 (by decide) (by decide) (by decide)
      (by norm_num [aabbCollide, axePlayer, Player.init, Player.getHitbox,
        Obstacle.spawn, Obstacle.getHitbox])⟩

/-- One threat adjustment keeps the clamped range. -/
theorem applyThreatOp_range (o : OwlState) (op : ThreatOp) :
    0 ≤ (applyThreatOp o op).threat ∧ (applyThreatOp o op).threat ≤ 1 := by
  cases op with
  | inc a =>
    refine ⟨le_max_left _ _, max_le (by norm_num) (min_le_left _ _)⟩
  | dec a =>
    refine ⟨le_max_left _ _, max_le (by norm_num) (min_le_left _ _)⟩

/-- C4: (1) under any sequence of `increaseThreat`/`decreaseThreat` calls
with non-negative amounts the threat stays in `[0, 1]`; (2) over any trace of
playing ticks the threat-triggered `_gameOver('caught')` fires at most once;
(3) in the `gameover` state a tick changes nothing (no re-trigger); (4) a
playing tick whose threat adjustments reach `1` does transition to
`gameover` and counts exactly one trigger. -/
theorem threat_clamped_and_gameover_once :
    (∀ (o : OwlState) (ops : List ThreatOp), (∀ op ∈ ops, 0 ≤ op.amount) →
      0 ≤ o.threat → o.threat ≤ 1 →
      0 ≤ (ops.foldl applyThreatOp o).threat ∧ (ops.foldl applyThreatOp o).threat ≤ 1) ∧
    (∀ (trace : List (List ThreatOp)) (o : OwlState),
      (trace.foldl tickThreatCheck ⟨.playing, o, 0⟩).gameOverCount ≤ 1) ∧
    (∀ (st : RunState) (ops : List ThreatOp), st.phase = .gameover →
      tickThreatCheck st ops = st) ∧
    (∀ (st : RunState) (ops : List ThreatOp), st.phase = .playing →
      1 ≤ ((ops.foldl applyThreatOp st.owl)).threat →
      (tickThreatCheck st ops).phase = .gameover ∧
      (tickThreatCheck st ops).gameOverCount = st.gameOverCount + 1) := by
  have hbound : ∀ (ops : List ThreatOp) (o : OwlState),
      0 ≤ o.threat → o.threat ≤ 1 →
      0 ≤ (ops.foldl applyThreatOp o).threat ∧ (ops.foldl applyThreatOp o).threat ≤ 1 := by
    intro ops
    induction ops with
    | nil => intro o h0 h1; exact ⟨h0, h1⟩
    | cons op rest ih =>
      intro o _ _
      have h := applyThreatOp_range o op
      exact ih (applyThreatOp o op) h.1 h.2
  have hgameover : ∀ (st : RunState) (ops : List ThreatOp), st.phase = .gameover →
      tickThreatCheck st ops = st := by
    intro st ops h
    unfold tickThreatCheck
    rw [h]
  have htickPlayingHigh : ∀ (st : RunState) (ops : List ThreatOp), st.phase = .playing →
      1 ≤ (ops.foldl applyThreatOp st.owl).threat →
      tickThreatCheck st ops =
        { phase := .gameover, owl := (ops.foldl applyThreatOp st.owl).cancelSwoop
        , gameOverCount := st.gameOverCount + 1 } := by
    intro st ops hpl hth
    unfold tickThreatCheck
    rw [hpl]
    simp only [if_pos hth]
  have htickPlayingLow : ∀ (st : RunState) (ops : List ThreatOp), st.phase = .playing →
      ¬ 1 ≤ (ops.foldl applyThreatOp st.owl).threat →
      tickThreatCheck st ops = { st with owl := ops.foldl applyThreatOp st.owl } := by
    intro st ops hpl hth
    unfold tickThreatCheck
    rw [hpl]
    simp only [if_neg hth]
  refine ⟨fun o ops _ h0 h1 => hbound ops o h0 h1, ?_, hgameover, ?_⟩
  · intro trace o
    suffices h : ∀ (trace : List (List ThreatOp)) (st : RunState),
        st.gameOverCount ≤ 1 → (st.phase = .playing → st.gameOverCount = 0) →
        (trace.foldl tickThreatCheck st).gameOverCount ≤ 1 by
      exact h trace ⟨.playing, o, 0⟩ (by norm_num) (fun _ => rfl)
    intro trace
    induction trace with
    | nil => intro st h1 _; exact h1
    | cons ops rest ih =>
      intro st h1 h2
      rw [List.foldl_cons]
      rcases hphase : st.phase with _ | _
      · have hc := h2 hphase
        by_cases hth : 1 ≤ (ops.foldl applyThreatOp st.owl).threat
        · rw [htickPlayingHigh st ops hphase hth]
          refine ih _ (by simp [hc]) ?_
          intro hcontr
          exact GamePhase.noConfusion hcontr
        · rw [htickPlayingLow st ops hphase hth]
          exact ih _ (by simpa using h1) (fun _ => hc)
      · rw [hgameover st ops hphase]
        exact ih st h1 h2
  · intro st ops hpl hth
    rw [htickPlayingHigh st ops hpl hth]
    exact ⟨rfl, rfl⟩

/-- Witness for C4 at a concrete owl and op list (both clamp bounds hold, and
a tick that drives threat to 1 from the playing state fires the game-over
transition with count 1). -/
theorem threat_clamp_witness :
    (0 ≤ (([ThreatOp.inc (1/2), ThreatOp.dec (1/4)]).foldl applyThreatOp OwlState.init).threat ∧
      (([ThreatOp.inc (1/2), ThreatOp.dec (1/4)]).foldl applyThreatOp OwlState.init).threat ≤ 1) ∧
    ((tickThreatCheck ⟨.playing, OwlState.init, 0⟩ [ThreatOp.inc 2]).phase = .gameover ∧
      (tickThreatCheck ⟨.playing, OwlState.init, 0⟩ [ThreatOp.inc 2]).gameOverCount = 0 + 1) :=
  ⟨threat_clamped_and_gameover_once.1 OwlState.init [ThreatOp.inc (1/2), ThreatOp.dec (1/4)]
      (by
        intro op hop
        simp only [List.mem_cons, List.not_mem_nil, or_false] at hop
        rcases hop with rfl | rfl <;> norm_num [ThreatOp.amount])
      (by norm_num [OwlState.init]) (by norm_num [OwlState.init]),
    threat_clamped_and_gameover_once.2.2.2 ⟨.playing, OwlState.init, 0⟩ [ThreatOp.inc 2] rfl
      (by norm_num [applyThreatOp, OwlState.increaseThreat, clampQ, OwlState.init])⟩

/-- C1 (refutation): the warning-shadow lane chosen by `Owl._startSwoop` is a
function of the unseeded `Math.random()` stream, not of the seeded RNG — two
runs identical in every seeded respect (same owl state, same player position,
same difficulty) but with different `Math.random()` values get different
shadow lanes (lane 0 versus lane 4), so the seed does not reproduce the
pursuer-shadow-lane sequence. -/
theorem shadow_lane_depends_on_unseeded_random :
    ((OwlState.init.startSwoop 240 620 lanes480 1 1 (fun _ => 0) 0).1.shadows.map
        ShadowZone.lane = [0]) ∧
    ((OwlState.init.startSwoop 240 620 lanes480 1 1 (fun _ => 4/5) 0).1.shadows.map
        ShadowZone.lane = [4]) := by
  constructor
  · norm_num [OwlState.startSwoop, mkShadows, OwlState.init, lanes480]
  · norm_num [OwlState.startSwoop, mkShadows, OwlState.init, lanes480,
      show ((4:ℚ)/5 * 5) = 4 by norm_num, show Int.toNat 4 = 4 from rfl]

/-- C6: in the scenario — player inside the active non-decoy shadow from
t = 0 to t = 300 ms (dwell 300 ms > the 200 ms minimum), exiting before the
execution fires — exactly one dodge is credited (at the exit tick, and never
again), the owl's threat is decremented at that tick, and no capture occurs
at any point. -/
theorem dodge_credited_once_threat_drops_no_capture :
    (runShadowTrack scenarioStart (scenarioTrace.take 3)).swoopsDodged = 0 ∧
    (runShadowTrack scenarioStart (scenarioTrace.take 4)).swoopsDodged = 1 ∧
    (runShadowTrack scenarioStart scenarioTrace).swoopsDodged = 1 ∧
    (runShadowTrack scenarioStart (scenarioTrace.take 4)).owl.threat <
      (runShadowTrack scenarioStart (scenarioTrace.take 3)).owl.threat ∧
    (runShadowTrack scenarioStart scenarioTrace).captured = false := by
  have h1 : shadowTrackTick scenarioStart (scenarioTick 240) =
      { owl := { scenarioOwl with threat := 131/1250 }, wasInShadow := true, shadowDodgeTimer := 100, swoopsDodged := 0, streak := 1, score := 0, captured := false } := by
    norm_num [shadowTrackTick, scenarioStart, scenarioOwl, scenarioShadow, scenarioTick,
      OwlState.init, OwlState.increaseThreat, OwlState.decreaseThreat, clampQ,
      OwlState.isPlayerInShadow, OwlState.checkSwoopCapture, Player.init, Player.getHitbox,
      min_def, max_def]
  have h2 : shadowTrackTick
      { owl := { scenarioOwl with threat := 131/1250 }, wasInShadow := true, shadowDodgeTimer := 100, swoopsDodged := 0, streak := 1, score := 0, captured := false } (scenarioTick 240) =
      { owl := { scenarioOwl with threat := 137/1250 }, wasInShadow := true, shadowDodgeTimer := 200, swoopsDodged := 0, streak := 1, score := 0, captured := false } := by
    norm_num [shadowTrackTick, scenarioOwl, scenarioShadow, scenarioTick,
      OwlState.init, OwlState.increaseThreat, OwlState.decreaseThreat, clampQ,
      OwlState.isPlayerInShadow, OwlState.checkSwoopCapture, Player.init, Player.getHitbox,
      min_def, max_def]
  have h3 : shadowTrackTick
      { owl := { scenarioOwl with threat := 137/1250 }, wasInShadow := true, shadowDodgeTimer := 200, swoopsDodged := 0, streak := 1, score := 0, captured := false } (scenarioTick 240) =
      { owl := { scenarioOwl with threat := 143/1250 }, wasInShadow := true, shadowDodgeTimer := 300, swoopsDodged := 0, streak := 1, score := 0, captured := false } := by
    norm_num [shadowTrackTick, scenarioOwl, scenarioShadow, scenarioTick,
      OwlState.init, OwlState.increaseThreat, OwlState.decreaseThreat, clampQ,
      OwlState.isPlayerInShadow, OwlState.checkSwoopCapture, Player.init, Player.getHitbox,
      min_def, max_def]
  have h4 : shadowTrackTick
      { owl := { scenarioOwl with threat := 143/1250 }, wasInShadow := true, shadowDodgeTimer := 300, swoopsDodged := 0, streak := 1, score := 0, captured := false } (scenarioTick 160) =
      { owl := { scenarioOwl with threat := 283/2500 }, wasInShadow := false, shadowDodgeTimer := 0, swoopsDodged := 1, streak := 6/5, score := 50, captured := false } := by
    norm_num [shadowTrackTick, scenarioOwl, scenarioShadow, scenarioTick,
      OwlState.init, OwlState.increaseThreat, OwlState.decreaseThreat, clampQ,
      OwlState.isPlayerInShadow, OwlState.checkSwoopCapture, Player.init, Player.getHitbox,
      min_def, max_def]
  have h5 : shadowTrackTick
      { owl := { scenarioOwl with threat := 283/2500 }, wasInShadow := false, shadowDodgeTimer := 0, swoopsDodged := 1, streak := 6/5, score := 50, captured := false } (scenarioTick 160) =
      { owl := { scenarioOwl with threat := 14/125 }, wasInShadow := false, shadowDodgeTimer := 0, swoopsDodged := 1, streak := 6/5, score := 50, captured := false } := by
    norm_num [shadowTrackTick, scenarioOwl, scenarioShadow, scenarioTick,
      OwlState.init, OwlState.increaseThreat, OwlState.decreaseThreat, clampQ,
      OwlState.isPlayerInShadow, OwlState.checkSwoopCapture, Player.init, Player.getHitbox,
      min_def, max_def]
  have h6 : shadowTrackTick
      { owl := { scenarioOwl with threat := 14/125 }, wasInShadow := false, shadowDodgeTimer := 0, swoopsDodged := 1, streak := 6/5, score := 50, captured := false } (scenarioTick 160) =
      { owl := { scenarioOwl with threat := 277/2500 }, wasInShadow := false, shadowDodgeTimer := 0, swoopsDodged := 1, streak := 6/5, score := 50, captured := false } := by
    norm_num [shadowTrackTick, scenarioOwl, scenarioShadow, scenarioTick,
      OwlState.init, OwlState.increaseThreat, OwlState.decreaseThreat, clampQ,
      OwlState.isPlayerInShadow, OwlState.checkSwoopCapture, Player.init, Player.getHitbox,
      min_def, max_def]
  have e3 : runShadowTrack scenarioStart (scenarioTrace.take 3) =
      { owl := { scenarioOwl with threat := 143/1250 }, wasInShadow := true, shadowDodgeTimer := 300, swoopsDodged := 0, streak := 1, score := 0, captured := false } := by
    simp only [runShadowTrack, scenarioTrace, List.take, List.foldl, h1, h2, h3]
  have e4 : runShadowTrack scenarioStart (scenarioTrace.take 4) =
      { owl := { scenarioOwl with threat := 283/2500 }, wasInShadow := false, shadowDodgeTimer := 0, swoopsDodged := 1, streak := 6/5, score := 50, captured := false } := by
    simp only [runShadowTrack, scenarioTrace, List.take, List.foldl, h1, h2, h3, h4]
  have e6 : runShadowTrack scenarioStart scenarioTrace =
      { owl := { scenarioOwl with threat := 277/2500 }, wasInShadow := false, shadowDodgeTimer := 0, swoopsDodged := 1, streak := 6/5, score := 50, captured := false } := by
    simp only [runShadowTrack, scenarioTrace, List.foldl, h1, h2, h3, h4, h5, h6]
  rw [e3, e4, e6]
  refine ⟨rfl, rfl, rfl, ?_, rfl⟩
  norm_num

/-- Indexing with a default stays inside the list when the index is in
bounds. -/
theorem getD_mem_of_lt {α : Type} (l : List α) (i : Nat) (d : α) (h : i < l.length) :
    l.getD i d ∈ l := by
  rw [List.getD_eq_getElem l d h]
  exact List.getElem_mem h

/-- The `Obstacle` constructor stores the lane it is given. -/
theorem Obstacle.spawn_lane (t : ObstacleType) (lane : Nat) (x y s e1 e2 : ℚ) :
    (Obstacle.spawn t lane x y s e1 e2).lane = lane := by
  cases t <;> rfl

/-- The `Obstacle` constructor stores the type it is given. -/
theorem Obstacle.spawn_type (t : ObstacleType) (lane : Nat) (x y s e1 e2 : ℚ) :
    (Obstacle.spawn t lane x y s e1 e2).type = t := by
  cases t <;> rfl

/-- The eligible pattern pool is never empty (the base tier alone always
contributes nine entries). -/
theorem getPatterns_ne_nil (r : SeededRNG) (d : Nat) : (getPatterns r d).2 ≠ [] := by
  unfold getPatterns
  by_cases h2 : 2 ≤ d <;> by_cases h4 : 4 ≤ d <;> simp [h2, h4]

/-- Every pattern in the eligible pool lists at most four lanes. -/
theorem getPatterns_lanes_le (r : SeededRNG) (d : Nat) :
    ∀ p ∈ (getPatterns r d).2, p.lanes.length ≤ 4 := by
  have h : ((getPatterns r d).2.all fun p => decide (p.lanes.length ≤ 4)) = true := by
    unfold getPatterns
    by_cases h2 : 2 ≤ d <;> by_cases h4 : 4 ≤ d <;> simp [h2, h4]
  intro p hp
  simpa using List.all_eq_true.mp h p hp

/-- A list of at most four naturals leaves one of the five lanes `0..4`
unmentioned. -/
theorem exists_unoccupied_lane (l : List ℕ) (h : l.length ≤ 4) :
    ∃ m, m ≤ 4 ∧ m ∉ l := by
  by_contra hc
  push_neg at hc
  have hsub : Finset.range 5 ⊆ l.toFinset := by
    intro k hk
    rw [Finset.mem_range] at hk
    exact List.mem_toFinset.mpr (hc k (by omega))
  have h5 : (Finset.range 5).card ≤ l.toFinset.card := Finset.card_le_card hsub
  rw [Finset.card_range] at h5
  have := l.toFinset_card_le
  omega

/-- Obstacles built by `_buildPattern` only occupy lanes of the pattern. -/
theorem buildLanes_lane_mem (ty : ObstacleType) (gap : List Nat) (lp : List ℚ)
    (sy sm : ℚ) (ε : ℕ → ℚ) :
    ∀ (lanes : List Nat) (k : ℕ) (o : Obstacle),
      o ∈ buildLanes ty gap lp sy sm ε lanes k → o.lane ∈ lanes := by
  intro lanes
  induction lanes with
  | nil => intro k o ho; simp [buildLanes] at ho
  | cons lane rest ih =>
    intro k o ho
    simp only [buildLanes] at ho
    by_cases hg : gap.contains lane
    · rw [if_pos hg] at ho
      exact List.mem_cons_of_mem _ (ih _ o ho)
    · rw [if_neg hg] at ho
      rcases List.mem_cons.mp ho with h | h
      · subst h
        simp [Obstacle.spawn_lane]
      · exact List.mem_cons_of_mem _ (ih _ o h)

/-- The selected pattern always comes from the eligible pool. -/
theorem choosePattern_mem (r : SeededRNG) (d : Nat) (sh : Bool) :
    (Spawner.choosePattern r d sh).2 ∈ (getPatterns r d).2 := by
  unfold Spawner.choosePattern
  have hnil := getPatterns_ne_nil r d
  have hlen : 0 < (getPatterns r d).2.length := List.length_pos.mpr hnil
  by_cases huse : (sh && !((getPatterns r d).2.filter fun p =>
      decide (p.difficulty ≤ 1)).isEmpty) = true
  · have hsafe : ((getPatterns r d).2.filter fun p => decide (p.difficulty ≤ 1)) ≠ [] := by
      rw [Bool.and_eq_true] at huse
      simpa using huse.2
    have hslen : 0 < ((getPatterns r d).2.filter fun p =>
        decide (p.difficulty ≤ 1)).length := List.length_pos.mpr hsafe
    simp only [huse, if_true, ite_true]
    exact List.mem_of_mem_filter
      (getD_mem_of_lt _ _ _ (SeededRNG.outInt_lt _ _ hslen))
  · simp only [huse, if_false, ite_false]
    exact getD_mem_of_lt _ _ _ (SeededRNG.outInt_lt _ _ hlen)

/-- The validated pattern still lists at most four lanes. -/
theorem validatePattern_lanes_le (p : Pattern) (h : p.lanes.length ≤ 4) :
    (validatePattern p).lanes.length ≤ 4 := by
  unfold validatePattern
  split
  · rw [List.length_take]
    exact min_le_left _ _
  · exact h

/-- C3: for every RNG state, difficulty, and active-shadow flag, the
obstacles returned by one `_spawnObstaclePattern` call never cover all five
lanes — some lane index in `[0, 4]` is occupied by none of them. -/
theorem spawn_pattern_leaves_safe_lane (lanePositions : List ℚ) (spawnY : ℚ) (r : SeededRNG)
    (difficulty : Nat) (playerSpeed : ℚ) (hasActiveShadow : Bool) (ε : ℕ → ℚ) (k : ℕ) :
    ∃ lane, lane ≤ 4 ∧ ∀ o ∈ (Spawner.spawnObstaclePattern lanePositions spawnY r difficulty
      playerSpeed hasActiveShadow ε k).2.1, o.lane ≠ lane := by
  have hlen : (validatePattern
      (Spawner.choosePattern r difficulty hasActiveShadow).2).lanes.length ≤ 4 :=
    validatePattern_lanes_le _
      (getPatterns_lanes_le r difficulty _ (choosePattern_mem r difficulty hasActiveShadow))
  obtain ⟨m, hm, hnot⟩ := exists_unoccupied_lane _ hlen
  refine ⟨m, hm, ?_⟩
  intro o ho heq
  apply hnot
  rw [← heq]
  apply buildLanes_lane_mem
  simpa [Spawner.spawnObstaclePattern] using ho

/-- The observable record of an obstacle does not depend on the entropy fed
to its constructor. -/
theorem spawnRec_spawn (i : ℕ) (t : ObstacleType) (lane : Nat) (x y s e1 e2 : ℚ) :
    spawnRec i (Obstacle.spawn t lane x y s e1 e2) = (i, t, lane) := by
  simp [spawnRec, Obstacle.spawn_type, Obstacle.spawn_lane]

/-- The spawn records built by `_buildPattern` are independent of the
`Math.random()` stream and of the entropy index. -/
theorem buildLanes_map_rec (ty : ObstacleType) (gap : List Nat) (lp : List ℚ)
    (sy sm : ℚ) (ε₁ ε₂ : ℕ → ℚ) (i : ℕ) :
    ∀ (lanes : List Nat) (k₁ k₂ : ℕ),
      (buildLanes ty gap lp sy sm ε₁ lanes k₁).map (spawnRec i) =
      (buildLanes ty gap lp sy sm ε₂ lanes k₂).map (spawnRec i) := by
  intro lanes
  induction lanes with
  | nil => intro k₁ k₂; rfl
  | cons lane rest ih =>
    intro k₁ k₂
    simp only [buildLanes]
    by_cases hg : gap.contains lane
    · rw [if_pos hg, if_pos hg]
      exact ih k₁ k₂
    · rw [if_neg hg, if_neg hg]
      simp only [List.map_cons, spawnRec_spawn]
      rw [ih]

/-- One `_spawnObstaclePattern` call: the advanced RNG, the advanced entropy
index, and the spawn records are all independent of the `Math.random()`
stream (only the hidden per-obstacle `isEvil`/cooldown fields depend on it). -/
theorem spawnObstaclePattern_entropy_invariant (lp : List ℚ) (sy : ℚ) (r : SeededRNG)
    (d : Nat) (ps : ℚ) (sh : Bool) (ε₁ ε₂ : ℕ → ℚ) (k : ℕ) (i : ℕ) :
    (Spawner.spawnObstaclePattern lp sy r d ps sh ε₁ k).1 =
      (Spawner.spawnObstaclePattern lp sy r d ps sh ε₂ k).1 ∧
    (Spawner.spawnObstaclePattern lp sy r d ps sh ε₁ k).2.2 =
      (Spawner.spawnObstaclePattern lp sy r d ps sh ε₂ k).2.2 ∧
    (Spawner.spawnObstaclePattern lp sy r d ps sh ε₁ k).2.1.map (spawnRec i) =
      (Spawner.spawnObstaclePattern lp sy r d ps sh ε₂ k).2.1.map (spawnRec i) := by
  refine ⟨rfl, rfl, ?_⟩
  simp only [Spawner.spawnObstaclePattern]
  exact buildLanes_map_rec _ _ _ _ _ ε₁ ε₂ i _ k k

/-- One `Spawner.update` tick: the next spawner state, the advanced entropy
index, and the spawn records are independent of the `Math.random()` stream. -/
theorem update_entropy_invariant (s : SpawnerState) (t : SpawnTick) (ε₁ ε₂ : ℕ → ℚ)
    (k : ℕ) (i : ℕ) :
    (Spawner.update s t ε₁ k).1 = (Spawner.update s t ε₂ k).1 ∧
    (Spawner.update s t ε₁ k).2.2 = (Spawner.update s t ε₂ k).2.2 ∧
    (Spawner.update s t ε₁ k).2.1.map (spawnRec i) =
      (Spawner.update s t ε₂ k).2.1.map (spawnRec i) := by
  obtain ⟨h1, h2, h3⟩ := spawnObstaclePattern_entropy_invariant s.lanePositions s.spawnY
    s.rng t.difficulty t.playerSpeed t.hasActiveShadow ε₁ ε₂ k i
  refine ⟨?_, ?_, ?_⟩
  · simp only [Spawner.update, h1, h2]
  · simp only [Spawner.update, h1, h2]
  · simp only [Spawner.update]
    by_cases hc : max 900 (s.obstacleInterval / (1 + (t.difficulty : ℚ) * (15/100))) ≤
        s.obstacleTimer + t.dt * 1000
    · rw [if_pos hc, if_pos hc]
      exact h3
    · rw [if_neg hc, if_neg hc]

/-- C2: for every seed and every tick trace (difficulty, player speed and
timing), two independent runs of the spawner produce identical spawn-record
sequences — at each tick the same spawn decision fires and the spawned
obstacles agree pairwise in type, lane and spawn tick.  The two runs may
disagree arbitrarily in the unseeded `Math.random()` stream, which is the
only source of nondeterminism in the spawning path. -/
theorem spawner_spawn_sequence_deterministic (seed : Nat) (lanePositions : List ℚ)
    (trace : List SpawnTick) (ε₁ ε₂ : ℕ → ℚ) :
    runSpawner ε₁ trace (SpawnerState.init lanePositions seed) 0 0 =
    runSpawner ε₂ trace (SpawnerState.init lanePositions seed) 0 0 := by
  suffices h : ∀ (ts : List SpawnTick) (s : SpawnerState) (k i : ℕ),
      runSpawner ε₁ ts s k i = runSpawner ε₂ ts s k i from h trace _ 0 0
  intro ts
  induction ts with
  | nil => intro s k i; rfl
  | cons t rest ih =>
    intro s k i
    obtain ⟨h1, h2, h3⟩ := update_entropy_invariant s t ε₁ ε₂ k i
    simp only [runSpawner]
    rw [h1, h2, h3, ih]

end SnowOwl
